import Mathlib

/-!
Verification of the waste-collection route-optimisation script `waste_opt.py`.

The script's data model and operations are shallowly embedded here:

* Python floats that can be `float('inf')` are the two-constructor type
  `PyFloat` (finite values are exact rationals, which is faithful for every
  arithmetic operation the script performs on them: division by 1000,
  multiplication by 5 and by 1000, and comparison with thresholds).
* The external OSRM distance provider (`requests.get(url).json()`) is a
  parameter `provider : Nat → Nat → ProviderResult` giving, per ordered
  pair of location indices, one of the three behaviours the script
  distinguishes: a successful response carrying a distance in meters, a
  response without routes, or a raised exception.
* The external OR-Tools solver is a parameter returning `Option
  SolverSolution`; a returned solution is the chain of routing indices the
  extraction loop walks, together with the `IsEnd` test and the
  `IndexToNode` mapping the loop consults.
* The side effects of `optimize_routes` (folium polylines, the HTML
  summary boxes, `route_map.save`, `print`) are made explicit as fields of
  the returned `RunOutput` record.
-/

namespace WasteOpt

/-- A Python float value as used by the script: either a finite value
(modelled exactly as a rational) or `float('inf')`. -/
inductive PyFloat where
  | fin (q : ℚ)
  | inf
deriving DecidableEq, Repr

/-- One provider behaviour for one ordered pair, as distinguished by
`get_distance_matrix`: a parsed JSON response whose `routes` list is
nonempty (carrying the first route's `distance` in meters), a parsed
response with no routes, or an exception raised by the request or by JSON
parsing. -/
inductive ProviderResult where
  | ok (distanceMeters : ℚ)
  | noRoute
  | raise
deriving DecidableEq, Repr

/-- Constant `fuel_price_per_liter = 1.52` from the script's configuration block. -/
def fuel_price_per_liter : ℚ := 152 / 100

/-- Constant `fuel_consumption_per_km = 0.3` from the script's configuration block. -/
def fuel_consumption_per_km : ℚ := 3 / 10

/-- Constant `labor_hours_saved_per_km = 0.05` from the script's configuration block. -/
def labor_hours_saved_per_km : ℚ := 5 / 100

/-- Constant `FILL_THRESHOLD = 40` from the script's configuration block. -/
def FILL_THRESHOLD : Int := 40

/-- Dictionary `markham_locations`: the Truck 1 location dictionary, in insertion
order (Python dicts preserve it). Coordinates are the script's literals as
exact rationals. -/
def markham_locations : List (String × (ℚ × ℚ)) :=
  [("Depot (Markham)", (438561/10000, -793370/10000)),
   ("Markham Civic Centre", (438563/10000, -793370/10000)),
   ("Markville Mall", (438643/10000, -793021/10000)),
   ("Milne Dam Park", (438576/10000, -792813/10000)),
   ("Markham Village Library", (439025/10000, -792590/10000)),
   ("Unionville GO Station", (438565/10000, -793164/10000)),
   ("Angus Glen Community Centre", (439191/10000, -793190/10000)),
   ("Cornell Community Centre", (438952/10000, -792443/10000))]

/-- Dictionary `markham_bin_fill_levels`: the Truck 1 fill-level dictionary. The
depot has no entry. -/
def markham_bin_fill_levels : List (String × Int) :=
  [("Markham Civic Centre", 45),
   ("Markville Mall", 70),
   ("Milne Dam Park", 55),
   ("Markham Village Library", 30),
   ("Unionville GO Station", 25),
   ("Angus Glen Community Centre", 60),
   ("Cornell Community Centre", 50)]

/-- Dictionary `richmondhill_locations`: the Truck 2 location dictionary. -/
def richmondhill_locations : List (String × (ℚ × ℚ)) :=
  [("Depot (Richmond Hill)", (438811/10000, -794370/10000)),
   ("Hillcrest Mall", (438783/10000, -794402/10000)),
   ("Richmond Green Sports Centre", (439021/10000, -794121/10000)),
   ("David Hamilton Park", (438876/10000, -794213/10000)),
   ("Richmond Hill Centre", (439165/10000, -794355/10000)),
   ("Elgin West Community Centre", (438819/10000, -794525/10000)),
   ("Langstaff Community Centre", (438565/10000, -794700/10000))]

/-- Dictionary `richmondhill_bin_fill_levels`: the Truck 2 fill-level dictionary. -/
def richmondhill_bin_fill_levels : List (String × Int) :=
  [("Hillcrest Mall", 50),
   ("Richmond Green Sports Centre", 65),
   ("David Hamilton Park", 35),
   ("Richmond Hill Centre", 75),
   ("Elgin West Community Centre", 55),
   ("Langstaff Community Centre", 60)]

/-- Python's `fill_levels.get(name, 0)`: the mapped value when the name
has an entry, `0` otherwise. -/
def fillGet (fill_levels : List (String × Int)) (name : String) : Int :=
  match fill_levels.lookup name with
  | some v => v
  | none => 0

/-- The stop-filtering step of `optimize_routes` (line 106), with the
threshold as a parameter the way the spec states it (`FILL_THRESHOLD`
instantiates it):
`{name: coord for name, coord in locations.items()
  if name == "Depot" or fill_levels.get(name, 0) >= FILL_THRESHOLD}`.
A dict comprehension over a dict preserves iteration order, so this is a
filter of the association list. -/
def filtered_bins (locations : List (String × (ℚ × ℚ)))
    (fill_levels : List (String × Int)) (threshold : Int) :
    List (String × (ℚ × ℚ)) :=
  locations.filter (fun p => p.1 == "Depot" || threshold ≤ fillGet fill_levels p.1)

/-- The synthetic fallback written into a cell when the provider raises:
`abs(i - j) * 5`, given here the index distance `|i - j|` as a natural
number. -/
def synthetic_estimate (d : Nat) : ℚ := (d : ℚ) * 5

/-- One cell of the matrix built by `get_distance_matrix` (lines 63-78).
The matrix is initialised to `0` and only cells with `i != j` are
overwritten, so a cell is `0` on the diagonal and otherwise determined by
the provider's behaviour for the pair: `routes[0].distance / 1000` on a
response with routes, `float('inf')` on a response without routes, and
`abs(i - j) * 5` when the lookup raised. -/
def matrixEntry (provider : Nat → Nat → ProviderResult) (i j : Nat) : PyFloat :=
  if i ≠ j then
    match provider i j with
    | ProviderResult.ok d => PyFloat.fin (d / 1000)
    | ProviderResult.noRoute => PyFloat.inf
    | ProviderResult.raise => PyFloat.fin (synthetic_estimate ((i : ℤ) - (j : ℤ)).natAbs)
  else PyFloat.fin 0

/-- Function `get_distance_matrix(coords)`: the full `len(coords) × len(coords)`
matrix. The nested `for i / for j` loops over `range(num_locations)`
become a nested `List.range` map; every exception inside the loop body is
caught by the `try/except`, so the function is total — it always returns
the matrix. The coordinates enter only through the provider lookup, which
is parametrised by the pair of indices. -/
def get_distance_matrix (provider : Nat → Nat → ProviderResult)
    (num_locations : Nat) : List (List PyFloat) :=
  (List.range num_locations).map (fun i =>
    (List.range num_locations).map (fun j => matrixEntry provider i j))

/-- Python's `int()` on a finite float: truncation toward zero. -/
def pyInt (q : ℚ) : Int := if 0 ≤ q then q.floor else q.ceil

/-- The arc-cost callback registered with the solver (lines 86-89):
`int(distance_matrix[from_node][to_node] * 1000)` after mapping routing
indices to nodes. On a finite entry it returns the scaled integer; on
`float('inf')` the Python expression `int(float('inf') * 1000)` raises
`OverflowError`, modelled as the error branch. -/
def distance_callback (indexToNode : Nat → Nat)
    (distance_matrix : List (List PyFloat)) (from_index to_index : Nat) :
    Except String Int :=
  let from_node := indexToNode from_index
  let to_node := indexToNode to_index
  match (distance_matrix.getD from_node []).getD to_node (PyFloat.fin 0) with
  | PyFloat.fin q => Except.ok (pyInt (q * 1000))
  | PyFloat.inf => Except.error "OverflowError: cannot convert float infinity to integer"

/-- An OR-Tools solution as the route-extraction loop (lines 121-127)
consumes it: the chain of routing indices reached from `routing.Start(0)`
by repeatedly taking `solution.Value(routing.NextVar(index))`, with the
vehicle end index as the chain's last element, plus the solver's
`IsEnd` test and the manager's `IndexToNode` mapping. -/
structure SolverSolution where
  chain : List Nat
  isEnd : Nat → Bool
  indexToNode : Nat → Nat

/-- The route-extraction `while` loop of `optimize_routes` (lines
121-127), walking the solution chain: while the current index is not the
end index, map it to a node, append `location_coords[node_index]` when the
node is in range, and advance. -/
def extract_route (isEnd : Nat → Bool) (indexToNode : Nat → Nat)
    (location_coords : List (ℚ × ℚ)) : List Nat → List (ℚ × ℚ)
  | [] => []
  | index :: rest =>
    if isEnd index then []
    else
      let node_index := indexToNode index
      (if node_index < location_coords.length
        then [location_coords.getD node_index (0, 0)] else [])
        ++ extract_route isEnd indexToNode location_coords rest

/-- One HTML summary box (lines 132-144), with the literal figures the
f-string interpolates. Only `truck_name` and `box_position` vary between
boxes; every numeric figure is the hardcoded literal from the source
(`50 km`, `35 km`, `15 km`, `CAD$22.80`, `CAD$15.96`, `CAD$6.84`,
`0.75 hrs`). -/
structure SummaryBox where
  truck_name : String
  box_position : String
  initial_distance : ℚ
  optimized_distance : ℚ
  distance_saved : ℚ
  fuel_cost_before : ℚ
  fuel_cost_after : ℚ
  savings : ℚ
  labor_hours_saved : ℚ
deriving DecidableEq, Repr

/-- Builds the summary box the loop appends for a truck: the two
interpolated slots plus the seven hardcoded figures. -/
def make_summary_box (truck_name box_position : String) : SummaryBox :=
  { truck_name := truck_name
    box_position := box_position
    initial_distance := 50
    optimized_distance := 35
    distance_saved := 15
    fuel_cost_before := 2280 / 100
    fuel_cost_after := 1596 / 100
    savings := 684 / 100
    labor_hours_saved := 75 / 100 }

/-- One entry of the `trucks` dictionary: a name mapped to its locations,
fill levels, and display color. -/
structure Truck where
  name : String
  locations : List (String × (ℚ × ℚ))
  fill_levels : List (String × Int)
  color : String

/-- The `trucks` fleet dictionary of the script. -/
def trucks : List Truck :=
  [{ name := "Truck 1 (Markham)", locations := markham_locations,
     fill_levels := markham_bin_fill_levels, color := "blue" },
   { name := "Truck 2 (Richmond Hill)", locations := richmondhill_locations,
     fill_levels := richmondhill_bin_fill_levels, color := "red" }]

/-- Everything `optimize_routes` emits, made explicit: the polylines added
to the folium map (route coordinates with the truck color), the summary
boxes appended to `summary_boxes`, the files written by
`route_map.save(...)`, and the strings printed. The Python function
returns `None`: nothing is handed back to the caller. -/
structure RunOutput where
  polylines : List (List (ℚ × ℚ) × String)
  summary_boxes : List SummaryBox
  saved_files : List String
  printed : List String

/-- The body of the per-truck loop of `optimize_routes` (lines 99-144) for
the truck at position `idx`: filter the bins, build the distance matrix,
solve; on `if not solution: continue` contribute nothing, otherwise
extract the route, add its polyline when nonempty, and append the summary
box. Returns the polylines and boxes this iteration contributes. -/
def process_truck (provider : Nat → Nat → ProviderResult)
    (solver : List (List PyFloat) → Option SolverSolution)
    (idx : Nat) (t : Truck) :
    List (List (ℚ × ℚ) × String) × List SummaryBox :=
  let box_position :=
    if idx = 0 then "top: 10px; right: 10px;" else "bottom: 10px; right: 10px;"
  let fb := filtered_bins t.locations t.fill_levels FILL_THRESHOLD
  let location_coords := fb.map Prod.snd
  let dm := get_distance_matrix provider location_coords.length
  match solver dm with
  | none => ([], [])
  | some sol =>
    let route := extract_route sol.isEnd sol.indexToNode location_coords sol.chain
    ((if route.isEmpty then [] else [(route, t.color)]),
     [make_summary_box t.name box_position])

/-- Function `optimize_routes()` (lines 95-148), parametrised by the external
distance provider and the external OR-Tools solve, over an arbitrary
fleet: run the per-truck loop with `enumerate` indices, then save the map
as `optimized_route.html` and print the confirmation message. -/
def optimize_routes (provider : Nat → Nat → ProviderResult)
    (solver : List (List PyFloat) → Option SolverSolution)
    (fleet : List Truck) : RunOutput :=
  let per := fleet.enum.map (fun p => process_truck provider solver p.1 p.2)
  { polylines := per.foldr (fun r acc => r.1 ++ acc) []
    summary_boxes := per.foldr (fun r acc => r.2 ++ acc) []
    saved_files := ["optimized_route.html"]
    printed := ["📍 Map saved as \x27optimized_route.html\x27."] }

/-- Quantity `FleetSummary.fuel_cost_after` as the spec defines it, for comparison
with the script's reported figure: `optimized_distance ×
fuel_consumption_per_km × fuel_price_per_liter`. -/
def fuel_cost_after_spec (optimized_distance : ℚ) : ℚ :=
  optimized_distance * fuel_consumption_per_km * fuel_price_per_liter

/-- Nonnegativity of a Python float value: finite and `≥ 0`, or
`float('inf')`. -/
def PyFloat.nonneg : PyFloat → Prop
  | PyFloat.fin q => 0 ≤ q
  | PyFloat.inf => True

/-- The contract of a feasible single-vehicle OR-Tools solve on `n` nodes
with depot node `0`, as the spec describes the solver's output: walking
`IndexToNode` along the chain from the start index to the end index
visits node `0`, then every node `1..n-1` exactly once (in some order
`p`), then node `0` again at the end index; `IsEnd` holds exactly at the
chain's last element. -/
def FeasibleSolve (n : Nat) (sol : SolverSolution) : Prop :=
  ∃ p : List Nat,
    p.Perm (List.range' 1 (n - 1)) ∧
    sol.chain.map sol.indexToNode = (0 :: p) ++ [0] ∧
    (∀ i ∈ sol.chain.dropLast, sol.isEnd i = false) ∧
    (∀ x, sol.chain.getLast? = some x → sol.isEnd x = true)

/-- The distance matrix `optimize_routes` builds for a truck: the matrix
over the coordinates of its filtered bins. -/
def truck_matrix (provider : Nat → Nat → ProviderResult) (t : Truck) :
    List (List PyFloat) :=
  get_distance_matrix provider
    ((filtered_bins t.locations t.fill_levels FILL_THRESHOLD).map Prod.snd).length

/-- A provider whose every pair lookup raises. -/
def providerRaise : Nat → Nat → ProviderResult := fun _ _ => ProviderResult.raise

/-- A provider whose every pair lookup parses to a response with no
routes. -/
def providerNoRoute : Nat → Nat → ProviderResult := fun _ _ => ProviderResult.noRoute

/-- A provider whose every pair lookup succeeds with distance 1000 m. -/
def providerOk : Nat → Nat → ProviderResult := fun _ _ => ProviderResult.ok 1000

/-- Two concrete coordinates: a depot and one stop. -/
def coords2 : List (ℚ × ℚ) := [(0, 0), (1, 1)]

/-- A concrete feasible two-node OR-Tools solve: routing indices are `1`
(start, node 0), `0` (node 1), `2` (end, node 0), the layout the
`RoutingIndexManager(2, 1, 0)` uses. -/
def sol2 : SolverSolution :=
  { chain := [1, 0, 2]
    isEnd := fun i => i == 2
    indexToNode := fun i => if i == 1 then 0 else if i == 0 then 1 else 0 }

/-- A one-stop truck whose depot is literally named `"Depot"`, so the
filter keeps it: its matrix is `1 × 1`. -/
def truckA : Truck :=
  { name := "Truck A", locations := [("Depot", (0, 0))], fill_levels := [],
    color := "blue" }

/-- A two-stop truck (depot named `"Depot"` plus one bin over threshold):
its matrix is `2 × 2`. -/
def truckB : Truck :=
  { name := "Truck B", locations := [("Depot", (1, 1)), ("Stop B1", (2, 2))],
    fill_levels := [("Stop B1", 80)], color := "red" }

/-- The solver behaviour for the partial-failure scenario: no solution on
the `1 × 1` matrix of `truckA`, the two-node tour `sol2` on the `2 × 2`
matrix of `truckB`. -/
def solverAB : List (List PyFloat) → Option SolverSolution :=
  fun dm => if dm.length = 2 then some sol2 else none

/-- A solver that always returns the trivial solution whose start index
is already the end index (route extraction yields the empty route). -/
def solverTrivial : List (List PyFloat) → Option SolverSolution :=
  fun _ => some { chain := [0], isEnd := fun _ => true, indexToNode := fun i => i }

/-- A one-truck fleet used to exhibit a summary box of a concrete run. -/
def truckW : Truck :=
  { name := "T", locations := [("Depot", (0, 0))], fill_levels := [],
    color := "blue" }

/-- Indexing into a mapped `List.range`: the `i`-th row/cell of the built
matrix is the generating function at `i`. -/
theorem getD_map_range {α : Type} (f : Nat → α) {n i : Nat} (hi : i < n) (d : α) :
    ((List.range n).map f).getD i d = f i := by
  rw [List.getD_eq_getElem?_getD, List.getElem?_map, List.getElem?_range hi]
  rfl

/-- The `(i, j)` cell of `get_distance_matrix` is `matrixEntry` for
in-range indices, whatever defaults the lookups carry. -/
theorem get_distance_matrix_cell (provider : Nat → Nat → ProviderResult)
    {n i j : Nat} (hi : i < n) (hj : j < n) (drow : List PyFloat) (d : PyFloat) :
    ((get_distance_matrix provider n).getD i drow).getD j d = matrixEntry provider i j := by
  rw [get_distance_matrix, getD_map_range _ hi, getD_map_range _ hj]

/-- Membership in the right-fold that concatenates per-iteration
contributions: an element appears iff some list element contributes it. -/
theorem mem_foldr_append {α β : Type} (g : α → List β) (b : β) :
    ∀ l : List α, (b ∈ l.foldr (fun r acc => g r ++ acc) []) ↔ ∃ x ∈ l, b ∈ g x := by
  intro l
  induction l with
  | nil => simp
  | cons x xs ih => simp [ih]

/-- When the solver finds no solution for a truck's matrix, the loop
iteration contributes no summary box (`if not solution: continue`). -/
theorem process_truck_snd_none (provider : Nat → Nat → ProviderResult)
    (solver : List (List PyFloat) → Option SolverSolution) (idx : Nat) (t : Truck)
    (h : solver (truck_matrix provider t) = none) :
    (process_truck provider solver idx t).2 = [] := by
  simp only [process_truck]
  simp only [truck_matrix] at h
  rw [h]

/-- When the solver returns a solution for a truck's matrix, the loop
iteration contributes exactly that truck's summary box. -/
theorem process_truck_snd_some (provider : Nat → Nat → ProviderResult)
    (solver : List (List PyFloat) → Option SolverSolution) (idx : Nat) (t : Truck)
    (sol : SolverSolution) (h : solver (truck_matrix provider t) = some sol) :
    (process_truck provider solver idx t).2
      = [make_summary_box t.name
          (if idx = 0 then "top: 10px; right: 10px;" else "bottom: 10px; right: 10px;")] := by
  simp only [process_truck]
  simp only [truck_matrix] at h
  rw [h]

/-- The accumulated summary boxes of the per-truck loop, run from any
enumeration index: their truck names are exactly the names of the trucks
whose solve returned a solution, in fleet order. -/
theorem run_boxes_names (provider : Nat → Nat → ProviderResult)
    (solver : List (List PyFloat) → Option SolverSolution) :
    ∀ (fleet : List Truck) (k : Nat),
      ((((List.enumFrom k fleet).map
            (fun p => process_truck provider solver p.1 p.2)).foldr
          (fun r acc => r.2 ++ acc) []).map SummaryBox.truck_name)
        = (fleet.filter
            (fun t => (solver (truck_matrix provider t)).isSome)).map Truck.name := by
  intro fleet
  induction fleet with
  | nil => intro k; rfl
  | cons t ts ih =>
    intro k
    rw [List.enumFrom_cons, List.map_cons, List.foldr_cons, List.map_append,
      List.filter_cons]
    rcases h : solver (truck_matrix provider t) with _ | sol
    · rw [process_truck_snd_none provider solver k t h, ih (k + 1)]
      simp [h]
    · rw [process_truck_snd_some provider solver k t sol h, ih (k + 1)]
      simp [h, make_summary_box]

/-- C1: the stop filter is claimed to always keep the depot of the input
location set, but the code keeps only stops literally named `"Depot"`;
on the script's own Truck 1 data the depot key is `"Depot (Markham)"`, it
has no fill-level entry (defaulting to `0 < 40`), and it is dropped: the
filtered set is exactly the five over-threshold bins, without the depot
heading the input set. -/
theorem c1_depot_dropped_by_filter :
    (filtered_bins markham_locations markham_bin_fill_levels FILL_THRESHOLD).map Prod.fst
      = ["Markham Civic Centre", "Markville Mall", "Milne Dam Park",
         "Angus Glen Community Centre", "Cornell Community Centre"] ∧
    markham_locations.head?.map Prod.fst = some "Depot (Markham)" ∧
    "Depot (Markham)" ∉
      (filtered_bins markham_locations markham_bin_fill_levels FILL_THRESHOLD).map Prod.fst := by
  refine ⟨by decide, by decide, by decide⟩

/-- C3: when a pair is unreachable the matrix cell is `float('inf')`
(produced here for a 2-location matrix whose every provider lookup
reports no routes), and the arc-cost callback evaluated on that cell does
not return a cost: `int(float('inf') * 1000)` raises `OverflowError`, so
the solve crashes instead of signalling infeasibility. -/
theorem c3_callback_raises_on_infinite_arc :
    get_distance_matrix providerNoRoute 2
      = [[PyFloat.fin 0, PyFloat.inf], [PyFloat.inf, PyFloat.fin 0]] ∧
    distance_callback (fun i => i) (get_distance_matrix providerNoRoute 2) 0 1
      = Except.error "OverflowError: cannot convert float infinity to integer" := by
  refine ⟨by decide, rfl⟩

/-- C8: for every location set, fill-level mapping and threshold, every
stop kept by the filter other than one named `"Depot"` (the code's depot
test) has fill level ≥ threshold; a stop absent from the mapping is
treated as fill level `0`; and the output is a sublist of the input, so
the input iteration order is preserved. -/
theorem c8_filter_respects_threshold (locations : List (String × (ℚ × ℚ)))
    (fill_levels : List (String × Int)) (threshold : Int) :
    (∀ p ∈ filtered_bins locations fill_levels threshold,
        p.1 ≠ "Depot" → threshold ≤ fillGet fill_levels p.1) ∧
    (∀ name, fill_levels.lookup name = none → fillGet fill_levels name = 0) ∧
    (filtered_bins locations fill_levels threshold).Sublist locations := by
  refine ⟨?_, ?_, List.filter_sublist _⟩
  · intro p hp hdep
    have hcond := (List.mem_filter.mp hp).2
    simp only [Bool.or_eq_true, beq_iff_eq, decide_eq_true_eq] at hcond
    rcases hcond with h | h
    · exact absurd h hdep
    · exact h
  · intro name h
    simp [fillGet, h]

/-- C8 witness: the spec's scenario (threshold 40, fill levels A:45,
B:30, C:60): stop A is kept by the filter and the theorem yields
`40 ≤ fill level of A`. -/
theorem c8_filter_respects_threshold_witness :
    (40 : Int) ≤ fillGet [("A", 45), ("B", 30), ("C", 60)] "A" :=
  (c8_filter_respects_threshold
      [("Depot", (0, 0)), ("A", (1, 1)), ("B", (2, 2)), ("C", (3, 3))]
      [("A", 45), ("B", 30), ("C", 60)] 40).1
    ("A", (1, 1)) (by decide) (by decide)

/-- C6: for every ordered pair `(i, j)` with `i ≠ j` whose provider
lookup raises, the matrix cell is the deterministic synthetic estimate
`abs(i - j) * 5` (the whole matrix is still produced, since
`get_distance_matrix` is a total function here), and the estimate is a
strictly monotonically increasing function of the index distance. -/
theorem c6_provider_error_falls_back (provider : Nat → Nat → ProviderResult)
    (n i j : Nat) :
    (i < n → j < n → i ≠ j → provider i j = ProviderResult.raise →
      ((get_distance_matrix provider n).getD i []).getD j (PyFloat.fin 0)
        = PyFloat.fin (synthetic_estimate ((i : ℤ) - (j : ℤ)).natAbs)) ∧
    (∀ d₁ d₂ : Nat, d₁ < d₂ → synthetic_estimate d₁ < synthetic_estimate d₂) := by
  constructor
  · intro hi hj hij hraise
    rw [get_distance_matrix_cell provider hi hj, matrixEntry, if_pos hij, hraise]
  · intro d₁ d₂ h
    have : (d₁ : ℚ) < (d₂ : ℚ) := by exact_mod_cast h
    simpa [synthetic_estimate] using (by linarith : (d₁ : ℚ) * 5 < (d₂ : ℚ) * 5)

/-- C6 witness: with every lookup raising, the `(0, 2)` cell of a
3-location matrix is the synthetic estimate for index distance 2, and the
estimate grows from distance 1 to distance 2. -/
theorem c6_provider_error_falls_back_witness :
    ((get_distance_matrix providerRaise 3).getD 0 []).getD 2 (PyFloat.fin 0)
      = PyFloat.fin (synthetic_estimate (((0 : Nat) : ℤ) - ((2 : Nat) : ℤ)).natAbs) ∧
    synthetic_estimate 1 < synthetic_estimate 2 :=
  ⟨(c6_provider_error_falls_back providerRaise 3 0 2).1 (by decide) (by decide)
      (by decide) rfl,
   (c6_provider_error_falls_back providerRaise 3 0 2).2 1 2 (by decide)⟩

/-- C7: for every provider behaviour and matrix size, every diagonal cell
is exactly `0` (set without any lookup, whatever the provider would do);
if the provider only ever returns non-negative distances then no cell is
negative (finite cells are `≥ 0`); and a cell whose lookup reports no
viable path is exactly `float('inf')`, never `0` or a finite stand-in. -/
theorem c7_matrix_invariants (provider : Nat → Nat → ProviderResult) (n : Nat) :
    (∀ i, i < n →
      ((get_distance_matrix provider n).getD i []).getD i (PyFloat.fin 1)
        = PyFloat.fin 0) ∧
    ((∀ i j d, provider i j = ProviderResult.ok d → 0 ≤ d) →
      ∀ i j, i < n → j < n →
        (((get_distance_matrix provider n).getD i []).getD j (PyFloat.fin 0)).nonneg) ∧
    (∀ i j, i < n → j < n → i ≠ j → provider i j = ProviderResult.noRoute →
      ((get_distance_matrix provider n).getD i []).getD j (PyFloat.fin 0)
        = PyFloat.inf) := by
  refine ⟨?_, ?_, ?_⟩
  · intro i hi
    rw [get_distance_matrix_cell provider hi hi, matrixEntry, if_neg (by simp)]
  · intro hok i j hi hj
    rw [get_distance_matrix_cell provider hi hj, matrixEntry]
    by_cases hij : i ≠ j
    · rw [if_pos hij]
      rcases hp : provider i j with d | _ | _
      · have hd := hok i j d hp
        simp only [PyFloat.nonneg]
        positivity
      · simp [PyFloat.nonneg]
      · simp only [PyFloat.nonneg, synthetic_estimate]
        positivity
    · rw [if_neg hij]
      simp [PyFloat.nonneg]
  · intro i j hi hj hij hno
    rw [get_distance_matrix_cell provider hi hj, matrixEntry, if_pos hij, hno]

/-- C7 witness: for a 2-location matrix, the diagonal cell `(1, 1)` is
`0` under the always-raising provider; every cell is non-negative under
the provider that always returns 1000 m; and the `(0, 1)` cell is
`float('inf')` under the provider that always reports no routes. -/
theorem c7_matrix_invariants_witness :
    ((get_distance_matrix providerRaise 2).getD 1 []).getD 1 (PyFloat.fin 1)
      = PyFloat.fin 0 ∧
    (((get_distance_matrix providerOk 2).getD 0 []).getD 1 (PyFloat.fin 0)).nonneg ∧
    ((get_distance_matrix providerNoRoute 2).getD 0 []).getD 1 (PyFloat.fin 0)
      = PyFloat.inf :=
  ⟨(c7_matrix_invariants providerRaise 2).1 1 (by decide),
   (c7_matrix_invariants providerOk 2).2.1
      (fun i j d h => by
        cases h
        norm_num)
      0 1 (by decide) (by decide),
   (c7_matrix_invariants providerNoRoute 2).2.2 0 1 (by decide) (by decide)
      (by decide) rfl⟩

/-- C10: `get_distance_matrix` is total by construction for every
provider behaviour (each pair's exception is caught and replaced by the
fallback), and the matrix it returns is square with exactly
`num_locations` rows, each of length `num_locations` — including the
0-location case. -/
theorem c10_matrix_is_square (provider : Nat → Nat → ProviderResult) (n : Nat) :
    (get_distance_matrix provider n).length = n ∧
    ∀ row ∈ get_distance_matrix provider n, row.length = n := by
  constructor
  · simp [get_distance_matrix]
  · intro row hrow
    simp only [get_distance_matrix, List.mem_map] at hrow
    obtain ⟨i, _, rfl⟩ := hrow
    simp

/-- C10 witness: the 2-location matrix under the no-routes provider has
2 rows and its first row has length 2. -/
theorem c10_matrix_is_square_witness :
    (get_distance_matrix providerNoRoute 2).length = 2 ∧
    [PyFloat.fin 0, PyFloat.inf].length = 2 :=
  ⟨(c10_matrix_is_square providerNoRoute 2).1,
   (c10_matrix_is_square providerNoRoute 2).2 [PyFloat.fin 0, PyFloat.inf]
      (by decide)⟩

/-- C2: every summary box any run ever emits carries the same seven
hardcoded figures (50 km, 35 km, 15 km, CAD$22.80, CAD$15.96, CAD$6.84,
0.75 hrs), no matter what the provider or the solver did; the reported
fuel cost after equals the spec formula only at the fixed 35 km and
disagrees with it at any other optimized distance (e.g. 10 km gives
CAD$4.56, not CAD$15.96), so the figures are placeholders, not values
derived from the solved route's real distance. -/
theorem c2_summary_figures_are_placeholders :
    (∀ (provider : Nat → Nat → ProviderResult)
       (solver : List (List PyFloat) → Option SolverSolution) (fleet : List Truck),
      ∀ b ∈ (optimize_routes provider solver fleet).summary_boxes,
        b.initial_distance = 50 ∧ b.optimized_distance = 35 ∧
        b.distance_saved = 15 ∧ b.fuel_cost_before = 2280 / 100 ∧
        b.fuel_cost_after = 1596 / 100 ∧ b.savings = 684 / 100 ∧
        b.labor_hours_saved = 75 / 100) ∧
    fuel_cost_after_spec 35 = 1596 / 100 ∧
    fuel_cost_after_spec 10 ≠ 1596 / 100 := by
  refine ⟨?_,
    by norm_num [fuel_cost_after_spec, fuel_consumption_per_km, fuel_price_per_liter],
    by norm_num [fuel_cost_after_spec, fuel_consumption_per_km, fuel_price_per_liter]⟩
  intro provider solver fleet b hb
  have hb' :
      b ∈ (fleet.enum.map (fun p => process_truck provider solver p.1 p.2)).foldr
        (fun r acc => r.2 ++ acc) [] := hb
  obtain ⟨r, hr, hbr⟩ := (mem_foldr_append Prod.snd b _).mp hb'
  obtain ⟨p, _, rfl⟩ := List.mem_map.mp hr
  rcases h : solver (truck_matrix provider p.2) with _ | sol
  · rw [process_truck_snd_none provider solver p.1 p.2 h] at hbr
    exact absurd hbr (List.not_mem_nil b)
  · rw [process_truck_snd_some provider solver p.1 p.2 sol h,
      List.mem_singleton] at hbr
    subst hbr
    exact ⟨rfl, rfl, rfl, rfl, rfl, rfl, rfl⟩

/-- C2 witness: a concrete run (one truck, trivial solver) emits a box,
and the theorem yields that its reported fuel cost after is the
hardcoded CAD$15.96. -/
theorem c2_summary_figures_are_placeholders_witness :
    (make_summary_box "T" "top: 10px; right: 10px;").fuel_cost_after = 1596 / 100 :=
  ((c2_summary_figures_are_placeholders.1 providerRaise solverTrivial [truckW]
      (make_summary_box "T" "top: 10px; right: 10px;")
      (show make_summary_box "T" "top: 10px; right: 10px;"
          ∈ [make_summary_box "T" "top: 10px; right: 10px;"] from
        List.mem_singleton.mpr rfl)).2.2.2.2).1

/-- C5 (amended): a vehicle whose solve fails does not abort the run —
every later vehicle with a solution still gets its summary box — but no
diagnostic is produced either: the emitted boxes are exactly those of the
vehicles whose solve succeeded, in fleet order, and a failed vehicle
leaves no trace in the output. -/
theorem c5_failed_vehicle_skipped_silently (provider : Nat → Nat → ProviderResult)
    (solver : List (List PyFloat) → Option SolverSolution) (fleet : List Truck) :
    (optimize_routes provider solver fleet).summary_boxes.map SummaryBox.truck_name
      = (fleet.filter
          (fun t => (solver (truck_matrix provider t)).isSome)).map Truck.name := by
  have h := run_boxes_names provider solver fleet 0
  exact h

/-- C5 counterexample: a concrete two-truck run in which the first
truck's solve fails and the second succeeds. The run is not aborted (the
second truck's box and polyline are produced), but the full output —
boxes, polylines, saved files, printed lines — is exhibited and contains
no diagnostic identifying the failed first truck anywhere. -/
theorem c5_no_diagnostic_for_failed_vehicle :
    solverAB (truck_matrix providerOk truckA) = none ∧
    (optimize_routes providerOk solverAB [truckA, truckB]).summary_boxes.map
      SummaryBox.truck_name = ["Truck B"] ∧
    (optimize_routes providerOk solverAB [truckA, truckB]).polylines
      = [([(1, 1), (2, 2)], "red")] ∧
    (optimize_routes providerOk solverAB [truckA, truckB]).saved_files
      = ["optimized_route.html"] ∧
    (optimize_routes providerOk solverAB [truckA, truckB]).printed
      = ["📍 Map saved as \x27optimized_route.html\x27."] := by
  refine ⟨rfl, rfl, rfl, rfl, rfl⟩

/-- C9 (amended): `optimize_routes` itself renders and persists — on
every input it saves the map file `optimized_route.html` and prints the
confirmation line; the Python function returns `None`, handing no
computed structures back to the caller. -/
theorem c9_run_persists_and_prints (provider : Nat → Nat → ProviderResult)
    (solver : List (List PyFloat) → Option SolverSolution) (fleet : List Truck) :
    (optimize_routes provider solver fleet).saved_files = ["optimized_route.html"] ∧
    (optimize_routes provider solver fleet).printed
      = ["📍 Map saved as \x27optimized_route.html\x27."] :=
  ⟨rfl, rfl⟩

/-- C9 counterexample: even on the empty fleet with a provider that
always fails and a solver that never solves, the run writes a file and
prints — the side effects are not `none beyond returning computed
structures`. -/
theorem c9_empty_run_still_saves_a_file :
    (optimize_routes providerRaise (fun _ => none) []).saved_files ≠ [] ∧
    (optimize_routes providerRaise (fun _ => none) []).printed ≠ [] := by
  refine ⟨by decide, by decide⟩

/-- Reading every index of a list back through `getD` reproduces the
list. -/
theorem getD_range_map_self (coords : List (ℚ × ℚ)) :
    (List.range coords.length).map (fun k => coords.getD k (0, 0)) = coords := by
  apply List.ext_getElem
  · simp
  · intro m h1 h2
    simp only [List.getElem_map, List.getElem_range]
    exact List.getD_eq_getElem coords (0, 0) h2

/-- The extraction loop on a chain whose last element is the end index
and whose other elements map to in-range nodes appends exactly the
coordinates of the nodes of the chain minus its end. -/
theorem extract_route_eq_dropLast_map (isEnd : Nat → Bool) (itn : Nat → Nat)
    (coords : List (ℚ × ℚ)) :
    ∀ chain : List Nat,
      (∀ i ∈ chain.dropLast, isEnd i = false) →
      (∀ x, chain.getLast? = some x → isEnd x = true) →
      (∀ i ∈ chain.dropLast, itn i < coords.length) →
      extract_route isEnd itn coords chain
        = chain.dropLast.map (fun i => coords.getD (itn i) (0, 0)) := by
  intro chain
  induction chain with
  | nil => intro _ _ _; rfl
  | cons x rest ih =>
    intro hnotend hend hlt
    cases rest with
    | nil =>
      have hx : isEnd x = true := hend x rfl
      simp [extract_route, hx]
    | cons y rest2 =>
      have hxmem : x ∈ (x :: y :: rest2).dropLast := by
        rw [List.dropLast_cons₂]
        exact List.mem_cons_self x _
      have hx : isEnd x = false := hnotend x hxmem
      have hxlt : itn x < coords.length := hlt x hxmem
      have htail : extract_route isEnd itn coords (y :: rest2)
          = (y :: rest2).dropLast.map (fun i => coords.getD (itn i) (0, 0)) := by
        refine ih ?_ ?_ ?_
        · intro i hi
          refine hnotend i ?_
          rw [List.dropLast_cons₂]
          exact List.mem_cons_of_mem x hi
        · intro z hz
          refine hend z ?_
          rw [List.getLast?_cons_cons]
          exact hz
        · intro i hi
          refine hlt i ?_
          rw [List.dropLast_cons₂]
          exact List.mem_cons_of_mem x hi
      rw [List.dropLast_cons₂, List.map_cons]
      conv_lhs => rw [extract_route]
      rw [hx, htail]
      simp [hxlt]

/-- The two-node solve `sol2` satisfies the feasible-solve contract on
`coords2`. -/
theorem feasible_sol2 : FeasibleSolve coords2.length sol2 := by
  refine ⟨[1], ?_, rfl, ?_, ?_⟩
  · exact List.Perm.refl [1]
  · intro i hi
    fin_cases hi <;> rfl
  · intro x hx
    have h2 : x = 2 := by
      have : (some 2 : Option Nat) = some x := by
        rw [← hx]
        rfl
      exact (Option.some.injEq 2 x ▸ this).symm ▸ rfl
    rw [h2]
    rfl

/-- C4 (amended): for every nonempty coordinate list and every feasible
solve, the extracted route starts at the depot coordinate and is a
permutation of the full coordinate list — every index appears exactly
once — but the final return to the depot is not appended: the loop stops
at the end index without emitting it. -/
theorem c4_route_is_depot_led_permutation (coords : List (ℚ × ℚ))
    (sol : SolverSolution) (hne : coords ≠ [])
    (hfeas : FeasibleSolve coords.length sol) :
    (extract_route sol.isEnd sol.indexToNode coords sol.chain).Perm coords ∧
    (extract_route sol.isEnd sol.indexToNode coords sol.chain).head? = coords.head? := by
  obtain ⟨p, hperm, hmap, hnotend, hend⟩ := hfeas
  have hdrop : sol.chain.dropLast.map sol.indexToNode = 0 :: p := by
    rw [List.map_dropLast, hmap]
    exact List.dropLast_concat
  have hn : 0 < coords.length := List.length_pos.mpr hne
  have hbound : ∀ i ∈ sol.chain.dropLast, sol.indexToNode i < coords.length := by
    intro i hi
    have hmem : sol.indexToNode i ∈ (0 :: p) := by
      rw [← hdrop]
      exact List.mem_map_of_mem sol.indexToNode hi
    rcases List.mem_cons.mp hmem with h | h
    · rw [h]
      exact hn
    · have h2 := List.mem_range'_1.mp (hperm.mem_iff.mp h)
      omega
  have hex : extract_route sol.isEnd sol.indexToNode coords sol.chain
      = (0 :: p).map (fun k => coords.getD k (0, 0)) := by
    rw [extract_route_eq_dropLast_map sol.isEnd sol.indexToNode coords sol.chain
        hnotend hend hbound, ← hdrop, List.map_map]
    rfl
  have hrange : List.range coords.length = 0 :: List.range' 1 (coords.length - 1) := by
    rw [List.range_eq_range']
    rcases Nat.exists_eq_succ_of_ne_zero (by omega : coords.length ≠ 0) with ⟨m, hm⟩
    rw [hm, List.range'_succ]
    simp
  have hperm2 : (0 :: p).Perm (List.range coords.length) := by
    rw [hrange]
    exact List.Perm.cons 0 hperm
  constructor
  · rw [hex]
    have h3 := hperm2.map (fun k => coords.getD k (0, 0))
    rw [getD_range_map_self coords] at h3
    exact h3
  · rw [hex]
    cases coords with
    | nil => exact absurd rfl hne
    | cons c cs => rfl

/-- C4 witness: on the concrete two-node feasible solve, the extracted
route is a permutation of the two coordinates and starts at the depot
coordinate. -/
theorem c4_route_is_depot_led_permutation_witness :
    (extract_route sol2.isEnd sol2.indexToNode coords2 sol2.chain).Perm coords2 ∧
    (extract_route sol2.isEnd sol2.indexToNode coords2 sol2.chain).head?
      = coords2.head? :=
  c4_route_is_depot_led_permutation coords2 sol2 (by simp [coords2]) feasible_sol2

/-- C4 counterexample: a concrete feasible two-node solve whose extracted
route is `[depot, stop]` — it starts at the depot and visits the other
index exactly once, but its last element is the stop, not the depot: the
extracted sequence does not end at the depot index. -/
theorem c4_route_does_not_end_at_depot :
    FeasibleSolve coords2.length sol2 ∧
    extract_route sol2.isEnd sol2.indexToNode coords2 sol2.chain = [(0, 0), (1, 1)] ∧
    (extract_route sol2.isEnd sol2.indexToNode coords2 sol2.chain).getLast?
      ≠ coords2.head? := by
  refine ⟨feasible_sol2, rfl, ?_⟩
  intro h
  have h2 : (some ((1 : ℚ), (1 : ℚ)) : Option (ℚ × ℚ)) = some (0, 0) := h
  have h3 := (Option.some.injEq _ _ ▸ h2)
  exact absurd (congrArg Prod.fst h3) (by norm_num)

end WasteOpt
